import Mathlib

/-!
Verification of the Google Drive helper module (gdrive/drive_helpers.py).

The module is embedded shallowly: pure helpers become Lean functions; the
Drive service used by the find-or-create operation is modelled as an oracle
holding the outcome of the (at most one) list call and the (at most one)
create call, and the operation returns both its result and the ordered
trace of API calls it issued, so that call counts and call parameters are
provable facts.
-/

/-- The single-quote character, written via its code point. -/
def squoteChar : Char := Char.ofNat 39

/-- The backslash character, written via its code point. -/
def bslashChar : Char := Char.ofNat 92

/-- A one-character string holding a single quote. -/
def squoteStr : String := String.mk [squoteChar]

/-- Fuel-indexed core of Python str.replace on character lists: scans left to
right, replacing the leftmost occurrence of `old` by `new` and continuing
after it (non-overlapping), exactly as CPython does for a non-empty pattern.
The fuel only bounds the recursion; `strReplace` supplies enough. -/
def strReplaceAux (old new : List Char) : Nat → List Char → List Char
  | _, [] => []
  | 0, s => s
  | fuel + 1, x :: xs =>
    if old.isPrefixOf (x :: xs) ∧ old ≠ [] then
      new ++ strReplaceAux old new fuel (xs.drop (old.length - 1))
    else
      x :: strReplaceAux old new fuel xs

/-- Python str.replace(old, new) for a non-empty `old`, on character lists. -/
def strReplace (old new s : List Char) : List Char :=
  strReplaceAux old new s.length s

/-- Embeds line 140: escaped_name = folder_name.replace with the quote
replaced by backslash-quote. -/
def escapeName (folder_name : String) : String :=
  String.mk (strReplace [squoteChar] [bslashChar, squoteChar] folder_name.data)

/-- Embeds line 141: the search query built from the escaped folder name. -/
def folderQuery (folder_name : String) : String :=
  "name = " ++ squoteStr ++ escapeName folder_name ++ squoteStr ++
    " and mimeType = " ++ squoteStr ++ "application/vnd.google-apps.folder" ++ squoteStr ++
    " and trashed = false"

/-- Python truthiness of an optional string: None and the empty string are
falsy, any other string is truthy. -/
def truthy : Option String → Bool
  | none => false
  | some s => s ≠ ""

/-- A folder record as returned by the Drive list call (fields id, name,
parents). -/
structure FolderRecord where
  id : String
  name : String
  parents : List String
deriving DecidableEq

/-- The response of a Drive list call; the files key may be absent, in which
case the code falls back to the empty list (results.get with default). -/
structure ListResponse where
  files : Option (List FolderRecord)
deriving DecidableEq

/-- The response of a Drive create call; the id key may be absent (the code
reads it with .get, yielding None when missing). -/
structure CreateResponse where
  id : Option String
  name : Option String
deriving DecidableEq

/-- The metadata payload sent to the create call (lines 179-183). -/
structure FolderMetadata where
  name : String
  mimeType : String
  parents : List String
deriving DecidableEq

/-- The keyword parameters of the list call built at lines 144-155. An
absent optional key is modelled as none. -/
structure SearchParams where
  q : String
  pageSize : Nat
  fields : String
  supportsAllDrives : Bool
  includeItemsFromAllDrives : Bool
  corpora : Option String
  driveId : Option String
deriving DecidableEq

/-- One API call issued by find_or_create_folder, with its parameters. -/
inductive CallEvent where
  | listCall (params : SearchParams)
  | createCall (body : FolderMetadata) (fields : String) (supportsAllDrives : Bool)
deriving DecidableEq

/-- Whether a call event is a list call. -/
def isListCall : CallEvent → Bool
  | CallEvent.listCall _ => true
  | CallEvent.createCall _ _ _ => false

/-- Whether a call event is a create call. -/
def isCreateCall : CallEvent → Bool
  | CallEvent.listCall _ => false
  | CallEvent.createCall _ _ _ => true

/-- The Drive service oracle: the outcome each call would have if issued.
An error value models the call raising an exception. -/
structure DriveService where
  listResult : Except Unit ListResponse
  createResult : Except Unit CreateResponse

/-- The search parameters built at lines 144-155: fixed page size and
fields, supportsAllDrives true, the include flag passed through, and the
corpora and driveId keys added only when drive_id is truthy. -/
def mkSearchParams (folder_name : String) (drive_id : Option String)
    (include_items_from_all_drives : Bool) : SearchParams :=
  { q := folderQuery folder_name
    pageSize := 10
    fields := "files(id, name, parents)"
    supportsAllDrives := true
    includeItemsFromAllDrives := include_items_from_all_drives
    corpora := if truthy drive_id then some "drive" else none
    driveId := if truthy drive_id then drive_id else none }

/-- The creation metadata built at lines 172-183: the original folder name,
the folder MIME type, and a single parent that is the drive id when truthy
and the root sentinel otherwise. -/
def folderMetadata (folder_name : String) (drive_id : Option String) :
    FolderMetadata :=
  { name := folder_name
    mimeType := "application/vnd.google-apps.folder"
    parents := [if truthy drive_id then drive_id.getD "root" else "root"] }

/-- Embeds find_or_create_folder (lines 117-200). Returns the value the
Python function returns (None on any caught exception) together with the
ordered list of API calls issued. The single try block spans both calls, so
an error from either call short-circuits to a none result. -/
def find_or_create_folder (drive_service : DriveService)
    (folder_name : String) (drive_id : Option String)
    (include_items_from_all_drives : Bool) :
    Option String × List CallEvent :=
  let search_params := mkSearchParams folder_name drive_id
    include_items_from_all_drives
  match drive_service.listResult with
  | Except.error _ => (none, [CallEvent.listCall search_params])
  | Except.ok results =>
    let folders := results.files.getD []
    match folders with
    | f :: _ => (some f.id, [CallEvent.listCall search_params])
    | [] =>
      let folder_metadata := folderMetadata folder_name drive_id
      match drive_service.createResult with
      | Except.error _ =>
        (none,
          [CallEvent.listCall search_params,
            CallEvent.createCall folder_metadata "id, name" true])
      | Except.ok created =>
        (created.id,
          [CallEvent.listCall search_params,
            CallEvent.createCall folder_metadata "id, name" true])

/-- A permission record from the Drive API; the type and role keys may be
absent (the code reads them with .get). -/
structure Permission where
  type : Option String
  role : Option String
deriving DecidableEq

/-- Embeds check_public_link_permission (lines 14-27): any record whose type
is anyone and whose role is in the reader/writer/commenter list. -/
def check_public_link_permission (permissions : List Permission) : Bool :=
  permissions.any fun p =>
    (p.type == some "anyone") &&
      (([ "reader", "writer", "commenter" ] : List String).map some
        |>.contains p.role)

/-- Embeds get_drive_image_url (lines 48-58). -/
def get_drive_image_url (file_id : String) : String :=
  s!"https://drive.google.com/uc?export=view&id={file_id}"

/-- The dictionary built by build_drive_list_params; absent keys are none. -/
structure ListParams where
  q : String
  pageSize : Nat
  fields : String
  supportsAllDrives : Bool
  includeItemsFromAllDrives : Bool
  driveId : Option String
  corpora : Option String
deriving DecidableEq

/-- Embeds build_drive_list_params (lines 77-114): the base dictionary plus
the drive_id/corpora keys added by the if/elif chain, with Python
truthiness deciding each branch. -/
def build_drive_list_params (query : String) (page_size : Nat)
    (drive_id : Option String) (include_items_from_all_drives : Bool)
    (corpora : Option String) : ListParams :=
  let base : ListParams :=
    { q := query
      pageSize := page_size
      fields := "nextPageToken, files(id, name, mimeType, webViewLink, iconLink, modifiedTime, size)"
      supportsAllDrives := true
      includeItemsFromAllDrives := include_items_from_all_drives
      driveId := none
      corpora := none }
  if truthy drive_id then
    { base with
        driveId := drive_id
        corpora := if truthy corpora then corpora else some "drive" }
  else if truthy corpora then
    { base with corpora := corpora }
  else
    base

/-- A service whose list call succeeds with no matches and whose create
call succeeds, used to exercise the creation path. -/
def svcEmptyOk : DriveService :=
  ⟨Except.ok ⟨some []⟩, Except.ok ⟨some "NEW", some "A"⟩⟩

/-- A service whose list call succeeds with one existing match. -/
def svcFound : DriveService :=
  ⟨Except.ok ⟨some [⟨"F1", "A", ["p0"]⟩]⟩, Except.ok ⟨some "NEW", some "A"⟩⟩

/-- A service whose list call raises. -/
def svcListErr : DriveService :=
  ⟨Except.error (), Except.ok ⟨some "NEW", some "A"⟩⟩

/-- A service whose list call finds nothing and whose create call raises. -/
def svcCreateErr : DriveService :=
  ⟨Except.ok ⟨some []⟩, Except.error ()⟩

/-- Every run of find_or_create_folder issues either the single list call,
or the list call followed by the create call with the metadata built from
the name and drive id. -/
lemma find_or_create_folder_calls_shape (svc : DriveService) (name : String)
    (did : Option String) (inc : Bool) :
    (find_or_create_folder svc name did inc).2 =
        [CallEvent.listCall (mkSearchParams name did inc)] ∨
      (find_or_create_folder svc name did inc).2 =
        [CallEvent.listCall (mkSearchParams name did inc),
          CallEvent.createCall (folderMetadata name did) "id, name" true] := by
  unfold find_or_create_folder
  rcases svc with ⟨lr, cr⟩
  cases lr with
  | error e => left; rfl
  | ok results =>
    cases hfs : results.files.getD [] with
    | cons f fs => left; simp [hfs]
    | nil =>
      cases cr with
      | error e => right; simp [hfs]
      | ok created => right; simp [hfs]

/-- Replacing the single quote via the fuelled Python replace acts
characterwise once the fuel covers the input length. -/
lemma strReplaceAux_squote (fuel : Nat) (l : List Char) (h : l.length ≤ fuel) :
    strReplaceAux [squoteChar] [bslashChar, squoteChar] fuel l =
      l.flatMap (fun c =>
        if c = squoteChar then [bslashChar, squoteChar] else [c]) := by
  induction fuel generalizing l with
  | zero =>
    cases l with
    | nil => rfl
    | cons x xs => simp at h
  | succ n ih =>
    cases l with
    | nil => rfl
    | cons x xs =>
      have hlen : xs.length ≤ n := Nat.le_of_succ_le_succ (by simpa using h)
      simp only [strReplaceAux]
      by_cases hx : x = squoteChar
      · subst hx
        rw [if_pos]
        · simp only [List.length_cons, List.length_nil, Nat.zero_add,
            Nat.sub_self, List.drop_zero, ih xs hlen]
          simp
        · exact ⟨by simp [List.isPrefixOf], by simp⟩
      · rw [if_neg]
        · rw [ih xs hlen]
          simp [hx]
        · intro hcon
          have hq : squoteChar = x := by
            have h1 := hcon.1
            simp [List.isPrefixOf] at h1
            exact h1
          exact hx hq.symm

/-- C1: when the list call returns an empty result set, find_or_create_folder
issues exactly one list call and exactly one create call, and returns the id
taken from the create response. -/
theorem find_or_create_folder_creates_when_no_match
    (svc : DriveService) (name : String) (did : Option String) (inc : Bool)
    (resp : ListResponse) (created : CreateResponse)
    (hl : svc.listResult = Except.ok resp)
    (hf : resp.files.getD [] = [])
    (hc : svc.createResult = Except.ok created) :
    (find_or_create_folder svc name did inc).2.countP isListCall = 1 ∧
      (find_or_create_folder svc name did inc).2.countP isCreateCall = 1 ∧
      (find_or_create_folder svc name did inc).1 = created.id := by
  simp [find_or_create_folder, hl, hf, hc, List.countP_cons, isListCall,
    isCreateCall]

/-- C1 witness: a concrete run on the creation path. -/
theorem find_or_create_folder_creates_when_no_match_witness :
    svcEmptyOk.listResult = Except.ok ⟨some []⟩ ∧
      (⟨some []⟩ : ListResponse).files.getD [] = [] ∧
      svcEmptyOk.createResult = Except.ok ⟨some "NEW", some "A"⟩ ∧
      ((find_or_create_folder svcEmptyOk "A" none true).2.countP isListCall = 1 ∧
        (find_or_create_folder svcEmptyOk "A" none true).2.countP isCreateCall = 1 ∧
        (find_or_create_folder svcEmptyOk "A" none true).1 =
          (⟨some "NEW", some "A"⟩ : CreateResponse).id) :=
  ⟨rfl, rfl, rfl,
    find_or_create_folder_creates_when_no_match svcEmptyOk "A" none true
      ⟨some []⟩ ⟨some "NEW", some "A"⟩ rfl rfl rfl⟩

/-- C2: when the list call returns a non-empty result set,
find_or_create_folder issues exactly one list call and no create call, and
returns the id of the first listed record. -/
theorem find_or_create_folder_returns_first_match
    (svc : DriveService) (name : String) (did : Option String) (inc : Bool)
    (resp : ListResponse) (f : FolderRecord) (fs : List FolderRecord)
    (hl : svc.listResult = Except.ok resp)
    (hf : resp.files.getD [] = f :: fs) :
    (find_or_create_folder svc name did inc).2.countP isListCall = 1 ∧
      (find_or_create_folder svc name did inc).2.countP isCreateCall = 0 ∧
      (find_or_create_folder svc name did inc).1 = some f.id := by
  simp [find_or_create_folder, hl, hf, List.countP_cons, isListCall,
    isCreateCall]

/-- C2 witness: a concrete run that finds an existing folder. -/
theorem find_or_create_folder_returns_first_match_witness :
    svcFound.listResult = Except.ok ⟨some [⟨"F1", "A", ["p0"]⟩]⟩ ∧
      (⟨some [⟨"F1", "A", ["p0"]⟩]⟩ : ListResponse).files.getD [] =
        [⟨"F1", "A", ["p0"]⟩] ∧
      ((find_or_create_folder svcFound "A" none true).2.countP isListCall = 1 ∧
        (find_or_create_folder svcFound "A" none true).2.countP isCreateCall = 0 ∧
        (find_or_create_folder svcFound "A" none true).1 = some "F1") :=
  ⟨rfl, rfl,
    find_or_create_folder_returns_first_match svcFound "A" none true
      ⟨some [⟨"F1", "A", ["p0"]⟩]⟩ ⟨"F1", "A", ["p0"]⟩ [] rfl rfl⟩

/-- C3: a failure of either call yields a none result instead of an
exception, and a list failure means no create call is ever issued. -/
theorem find_or_create_folder_error_gives_none
    (svc : DriveService) (name : String) (did : Option String) (inc : Bool) :
    (∀ e : Unit, svc.listResult = Except.error e →
        (find_or_create_folder svc name did inc).1 = none ∧
          (find_or_create_folder svc name did inc).2.countP isCreateCall = 0) ∧
      (∀ (resp : ListResponse) (e : Unit), svc.listResult = Except.ok resp →
        resp.files.getD [] = [] → svc.createResult = Except.error e →
        (find_or_create_folder svc name did inc).1 = none) := by
  constructor
  · intro e hl
    simp [find_or_create_folder, hl, List.countP_cons, isCreateCall]
  · intro resp e hl hf hc
    simp [find_or_create_folder, hl, hf, hc]

/-- C3 witness: concrete runs with a failing list call and a failing create
call. -/
theorem find_or_create_folder_error_gives_none_witness :
    (svcListErr.listResult = Except.error () ∧
        (find_or_create_folder svcListErr "A" none true).1 = none ∧
        (find_or_create_folder svcListErr "A" none true).2.countP isCreateCall = 0) ∧
      (svcCreateErr.listResult = Except.ok ⟨some []⟩ ∧
        (⟨some []⟩ : ListResponse).files.getD [] = [] ∧
        svcCreateErr.createResult = Except.error () ∧
        (find_or_create_folder svcCreateErr "A" none true).1 = none) :=
  ⟨⟨rfl,
      ((find_or_create_folder_error_gives_none svcListErr "A" none true).1
        () rfl).1,
      ((find_or_create_folder_error_gives_none svcListErr "A" none true).1
        () rfl).2⟩,
    ⟨rfl, rfl, rfl,
      (find_or_create_folder_error_gives_none svcCreateErr "A" none true).2
        ⟨some []⟩ () rfl rfl rfl⟩⟩

/-- C4: with a truthy shared-drive id, the list parameters carry that
driveId and the drive corpora flag, and any create call uses metadata whose
parents list is exactly that id with supportsAllDrives set; without a drive
id, any create call uses the root parent. -/
theorem find_or_create_folder_scope
    (svc : DriveService) (name : String) (inc : Bool) (d : String)
    (hd : d ≠ "") :
    (mkSearchParams name (some d) inc).driveId = some d ∧
      (mkSearchParams name (some d) inc).corpora = some "drive" ∧
      (∀ p, CallEvent.listCall p ∈
          (find_or_create_folder svc name (some d) inc).2 →
          p.driveId = some d ∧ p.corpora = some "drive") ∧
      (∀ b f s, CallEvent.createCall b f s ∈
          (find_or_create_folder svc name (some d) inc).2 →
          b.parents = [d] ∧ s = true) ∧
      (∀ b f s, CallEvent.createCall b f s ∈
          (find_or_create_folder svc name none inc).2 →
          b.parents = ["root"]) := by
  refine ⟨by simp [mkSearchParams, truthy, hd],
    by simp [mkSearchParams, truthy, hd], ?_, ?_, ?_⟩
  · intro p hp
    rcases find_or_create_folder_calls_shape svc name (some d) inc with h | h <;>
      rw [h] at hp <;> simp at hp <;>
      simp [hp, mkSearchParams, truthy, hd]
  · intro b f s hb
    rcases find_or_create_folder_calls_shape svc name (some d) inc with h | h <;>
      rw [h] at hb <;> simp at hb
    rcases hb with ⟨hb1, hb2, hb3⟩
    subst hb1
    exact ⟨by simp [folderMetadata, truthy, hd], hb3⟩
  · intro b f s hb
    rcases find_or_create_folder_calls_shape svc name none inc with h | h <;>
      rw [h] at hb <;> simp at hb
    rcases hb with ⟨hb1, hb2, hb3⟩
    subst hb1
    simp [folderMetadata, truthy]

/-- C4 witness: the concrete drive id D1 on the creation path. -/
theorem find_or_create_folder_scope_witness :
    ("D1" : String) ≠ "" ∧
      (mkSearchParams "A" (some "D1") true).driveId = some "D1" ∧
      (mkSearchParams "A" (some "D1") true).corpora = some "drive" ∧
      (folderMetadata "A" (some "D1")).parents = ["D1"] :=
  ⟨by decide,
    (find_or_create_folder_scope svcEmptyOk "A" true "D1" (by decide)).1,
    (find_or_create_folder_scope svcEmptyOk "A" true "D1" (by decide)).2.1,
    ((find_or_create_folder_scope svcEmptyOk "A" true "D1" (by decide)).2.2.2.1
        (folderMetadata "A" (some "D1")) "id, name" true (by decide)).1⟩

/-- C6: the list request always comes first and carries page size 10, the
fields string id, name, parents, supportsAllDrives true, and the include
flag passed through unchanged. -/
theorem find_or_create_folder_list_request
    (svc : DriveService) (name : String) (did : Option String) (inc : Bool) :
    (find_or_create_folder svc name did inc).2.head? =
        some (CallEvent.listCall (mkSearchParams name did inc)) ∧
      (mkSearchParams name did inc).pageSize = 10 ∧
      (mkSearchParams name did inc).fields = "files(id, name, parents)" ∧
      (mkSearchParams name did inc).supportsAllDrives = true ∧
      (mkSearchParams name did inc).includeItemsFromAllDrives = inc := by
  refine ⟨?_, rfl, rfl, rfl, rfl⟩
  rcases find_or_create_folder_calls_shape svc name did inc with h | h <;>
    rw [h] <;> rfl

/-- C10: the metadata sent to the create call carries the original folder
name with no quote escaping applied. -/
theorem find_or_create_folder_create_name_unescaped
    (svc : DriveService) (name : String) (did : Option String) (inc : Bool) :
    (folderMetadata name did).name = name ∧
      (∀ b f s, CallEvent.createCall b f s ∈
          (find_or_create_folder svc name did inc).2 →
          b.name = name) := by
  refine ⟨rfl, ?_⟩
  intro b f s hb
  rcases find_or_create_folder_calls_shape svc name did inc with h | h <;>
    rw [h] at hb <;> simp at hb
  rcases hb with ⟨hb1, hb2, hb3⟩
  subst hb1
  rfl

/-- C10 witness: a concrete creation with a name holding a single quote,
showing the created name keeps the raw name. -/
theorem find_or_create_folder_create_name_unescaped_witness :
    CallEvent.createCall (folderMetadata (squoteStr ++ "A") none) "id, name"
        true ∈
        (find_or_create_folder svcEmptyOk (squoteStr ++ "A") none true).2 ∧
      (folderMetadata (squoteStr ++ "A") none).name = squoteStr ++ "A" :=
  ⟨by decide,
    (find_or_create_folder_create_name_unescaped svcEmptyOk
        (squoteStr ++ "A") none true).2
      (folderMetadata (squoteStr ++ "A") none) "id, name" true (by decide)⟩

/-- C5: in the query built by find_or_create_folder each single quote of the
name becomes backslash-quote and every other character, backslashes
included, passes through unchanged; the query embeds exactly this escaped
name. -/
theorem folder_query_escapes_only_squote (name : String) :
    (escapeName name).data =
        name.data.flatMap (fun c =>
          if c = squoteChar then [bslashChar, squoteChar] else [c]) ∧
      folderQuery name =
        "name = " ++ squoteStr ++ escapeName name ++ squoteStr ++
          " and mimeType = " ++ squoteStr ++
          "application/vnd.google-apps.folder" ++ squoteStr ++
          " and trashed = false" := by
  refine ⟨?_, rfl⟩
  simp only [escapeName, strReplace]
  exact strReplaceAux_squote name.data.length name.data (le_refl _)

/-- C7: check_public_link_permission is true exactly when some record has
type anyone and role reader, writer or commenter, and is false on the empty
list. -/
theorem check_public_link_permission_iff (perms : List Permission) :
    (check_public_link_permission perms = true ↔
        ∃ p ∈ perms, p.type = some "anyone" ∧
          (p.role = some "reader" ∨ p.role = some "writer" ∨
            p.role = some "commenter")) ∧
      check_public_link_permission [] = false := by
  refine ⟨?_, rfl⟩
  simp [check_public_link_permission, List.any_eq_true]

/-- C8: get_drive_image_url returns the fixed uc export prefix followed by
the file id, and on XYZ the exact documented URL. -/
theorem get_drive_image_url_format (file_id : String) :
    get_drive_image_url file_id =
        "https://drive.google.com/uc?export=view&id=" ++ file_id ∧
      get_drive_image_url "XYZ" =
        "https://drive.google.com/uc?export=view&id=XYZ" := by
  constructor
  · simp [get_drive_image_url, toString]
  · decide

/-- C9: build_drive_list_params always sets the browsing fields string and
supportsAllDrives, defaults corpora to drive when a truthy drive id comes
with no corpora, and omits the driveId key when no drive id is given. -/
theorem build_drive_list_params_spec (q : String) (ps : Nat)
    (did corp : Option String) (inc : Bool) :
    (build_drive_list_params q ps did inc corp).fields =
        "nextPageToken, files(id, name, mimeType, webViewLink, iconLink, modifiedTime, size)" ∧
      (build_drive_list_params q ps did inc corp).supportsAllDrives = true ∧
      (truthy did = true → corp = none →
        (build_drive_list_params q ps did inc corp).corpora = some "drive") ∧
      (did = none →
        (build_drive_list_params q ps did inc corp).driveId = none) := by
  refine ⟨?_, ?_, ?_, ?_⟩
  · simp [build_drive_list_params, apply_ite ListParams.fields]
  · simp [build_drive_list_params, apply_ite ListParams.supportsAllDrives]
  · intro ht hc
    subst hc
    simp [build_drive_list_params, ht, show truthy none = false from rfl]
  · intro hn
    subst hn
    simp [build_drive_list_params, show truthy none = false from rfl,
      apply_ite ListParams.driveId]

/-- C9 witness: concrete calls with a truthy drive id and no corpora, and
with no drive id. -/
theorem build_drive_list_params_spec_witness :
    truthy (some "D1") = true ∧
      (none : Option String) = none ∧
      (build_drive_list_params "q" 5 (some "D1") true none).corpora =
        some "drive" ∧
      (build_drive_list_params "q" 5 none true none).driveId = none :=
  ⟨by decide, rfl,
    (build_drive_list_params_spec "q" 5 (some "D1") none true).2.2.1
      (by decide) rfl,
    (build_drive_list_params_spec "q" 5 none none true).2.2.2 rfl⟩
